import Mathlib

/-!
Verification of the tiercel IRC ↔ Telegram relay.

Shallow embedding of `src/main.rs`, `src/types.rs` and `src/error.rs` of the
`flowbish/tiercel` repository, together with proofs about the claims of its
specification.

Rust `HashMap`s are modelled as association lists with first-match lookup;
all code paths that can `panic!` (Rust `unwrap` on a failing operation) are
modelled by an `Option` result where `none` stands for the panic.  External
effects (Telegram API calls, HTTP downloads, file writes) are modelled by
explicit success/failure switches passed in as data.
-/

namespace Tiercel

/-- Telegram numeric chat identifier (`type ChatID = telegram_bot::types::Integer`). -/
abbrev ChatID := Int

/-- IRC channel name (`type IrcChannel = String`). -/
abbrev IrcChannel := String

/-- Telegram group display name (`type TelegramGroup = String`). -/
abbrev TelegramGroup := String

/-- Association-list model of a Rust `HashMap` lookup (`HashMap::get`):
first entry whose key matches. -/
def lookupA {β : Type} : List (String × β) → String → Option β
  | [], _ => none
  | (k, v) :: rest, key => if k = key then some v else lookupA rest key

/-- Association-list model of a Rust `HashMap::insert`: the new binding
shadows (and here removes) any previous binding of the same key. -/
def insertA {β : Type} (m : List (String × β)) (k : String) (v : β) :
    List (String × β) :=
  (k, v) :: m.filter (fun p => p.1 ≠ k)

/-- Number of entries of an association list carrying the given key. -/
def countKey {β : Type} (m : List (String × β)) (k : String) : Nat :=
  (m.filter (fun p => p.1 = k)).length

/-- `struct RelayState` of `main.rs`: the shared routing and discovery state. -/
structure RelayState where
  /-- Map from IRC channel to Telegram group. -/
  tg_group : List (IrcChannel × TelegramGroup)
  /-- Map from Telegram group to IRC channel. -/
  irc_channel : List (TelegramGroup × IrcChannel)
  /-- Map from Telegram group name to chat id. -/
  chat_ids : List (TelegramGroup × ChatID)
deriving Repr, DecidableEq

/-- An IRC command as seen by `handle_irc`: only `PRIVMSG(channel, text)`
is inspected, every other command falls through. -/
inductive IrcCommand where
  | privmsg (channel : String) (text : String)
  | other
deriving Repr, DecidableEq

/-- An inbound IRC message: its command and the sender nickname extracted by
`msg.source_nickname()` (absent when the message has no user source). -/
structure IrcMessage where
  command : IrcCommand
  source_nickname : Option String
deriving Repr, DecidableEq

/-- What a loop does after handling one event, as observable control flow:
continue immediately, sleep then continue, or terminate the process. -/
inductive LoopAction where
  | continueNoSleep
  | sleepThenContinue (secs : Nat)
  | exitProcess (code : Nat)
deriving Repr, DecidableEq

/-- The relay line `format!("<{nick}> {message}")` used by both loops. -/
def relayFormat (nick message : String) : String :=
  "<" ++ nick ++ "> " ++ message

/-- Body of `handle_irc` for one successfully read message (`Ok(msg)` arm,
`main.rs` lines 153–196): returns the outbound Telegram sends
`(chat_id, text)` issued for this message.  A message is relayed iff it is a
`PRIVMSG`, has a source nickname, its channel is in `tg_group`, and the
mapped group has a known chat id; otherwise nothing is sent (the unknown-id
case only logs a warning). -/
def handle_irc_ok (st : RelayState) (msg : IrcMessage) :
    List (ChatID × String) :=
  match msg.command with
  | .privmsg channel t =>
    match msg.source_nickname with
    | some nick =>
      match lookupA st.tg_group channel with
      | some group =>
        match lookupA st.chat_ids group with
        | some id => [(id, relayFormat nick t)]
        | none => []
      | none => []
    | none => []
  | .other => []

/-- One iteration of `handle_irc`'s event loop (`main.rs` lines 151–201):
an `Ok` message is handled by `handle_irc_ok`, an `Err` is printed and the
loop continues with the next event — in both cases without sleeping and
without terminating. -/
def handle_irc_event (st : RelayState) (ev : Except String IrcMessage) :
    List (ChatID × String) × LoopAction :=
  match ev with
  | .error _ => ([], .continueNoSleep)
  | .ok msg => (handle_irc_ok st msg, .continueNoSleep)

/-- A Telegram user (`telegram_bot::types::User`), with the fields the relay
reads: `first_name`, `last_name`, `username`, plus the numeric `id` used to
recognise self-authored messages. -/
structure User where
  id : Int
  first_name : String
  last_name : Option String
  username : Option String
deriving Repr, DecidableEq

/-- `format_tg_nick` of `main.rs` (lines 52–59): the first name alone, or
`"first last"` when a last name is present. -/
def format_tg_nick (u : User) : String :=
  match u.last_name with
  | none => u.first_name
  | some last => u.first_name ++ " " ++ last

/-- `user_path` of `main.rs` (lines 137–142): the user's handle, or
`"anonymous"` when the user has no username. -/
def user_path (u : User) : String :=
  match u.username with
  | some name => name
  | none => "anonymous"

/-- A hyper `Url`, reduced to the parts the relay manipulates: host and
path segments.  `render` is the `Display` used when the URL is formatted
into a relay message. -/
structure MUrl where
  host : String
  path : List String
deriving Repr, DecidableEq

/-- `url.path_mut().unwrap().push(item)`: append one path segment. -/
def MUrl.push (u : MUrl) (item : String) : MUrl :=
  { u with path := u.path ++ [item] }

/-- Rendering of a URL into a string (`format!("{}", url)`). -/
def MUrl.render (u : MUrl) : String :=
  "https://" ++ u.host ++ "/" ++ String.intercalate "/" u.path

/-- File metadata carried by a Telegram attachment (`file_id`, optional
`file_size`), common to `PhotoSize`, `Document`, `Audio`, `Video`, `Voice`. -/
structure FileMeta where
  file_id : String
  file_size : Option Int
deriving Repr, DecidableEq

/-- `telegram_bot::types::MessageType`, restricted to the constructors the
relay distinguishes; every other kind lands in `otherKind` (the `_` arm). -/
inductive MessageType where
  | text (t : String)
  | photo (ps : List FileMeta)
  | sticker
  | document (d : FileMeta)
  | audio (a : FileMeta)
  | video (v : FileMeta)
  | voice (v : FileMeta)
  | otherKind
deriving Repr, DecidableEq

/-- `telegram_bot::types::Chat`: the relay only inspects the `Group` variant
(numeric `id` and display `title`); every other chat kind is ignored. -/
inductive Chat where
  | group (id : ChatID) (title : String)
  | otherChat
deriving Repr, DecidableEq

/-- An inbound Telegram message, with the fields `handle_tg` reads:
the chat it arrived in, its author (`m.from`) and its content (`m.msg`). -/
structure TgMessage where
  chat : Chat
  «from» : User
  msg : MessageType
deriving Repr, DecidableEq

/-! ## `types.rs`: media helpers -/

/-- The 62 characters produced by `rand`'s `gen_ascii_chars`. -/
def ascii_chars : List Char :=
  "ABCDEFGHIJKLMNOPQRSTUVWXYZabcdefghijklmnopqrstuvwxyz0123456789".toList

/-- One draw of `gen_ascii_chars`: a uniformly chosen element of
`ascii_chars`, the choice modelled by an index. -/
def gen_ascii_char (i : Fin 62) : Char :=
  ascii_chars.getD i.val 'A'

/-- `generate_name` of `types.rs` (lines 124–127): take six characters from
the generator stream; the stream of random draws is passed in as data. -/
def generate_name (rng : Nat → Fin 62) : String :=
  String.mk ((List.range 6).map (fun n => gen_ascii_char (rng n)))

/-- Model of Rust's `str::split(c)`: split a character list at every
occurrence of `c`; the result always has at least one (possibly empty)
piece, exactly like Rust's `split` iterator. -/
def splitChar (c : Char) : List Char → List (List Char)
  | [] => [[]]
  | x :: xs =>
    let r := splitChar c xs
    if x = c then [] :: r
    else
      match r with
      | [] => [[x]]
      | h :: t => (x :: h) :: t

/-- Rust `s.split(c)` on a string, as a list of strings. -/
def splitStr (c : Char) (s : String) : List String :=
  (splitChar c s.toList).map (fun l => String.mk l)

/-- `replace_filename` of `types.rs` (lines 129–134): Rust
`filename.split('.').last()` glued onto the new stem.  Note the `None` arm
is unreachable: Rust's `split` always yields at least one piece. -/
def replace_filename (filename : String) (name : String) : String :=
  match (splitStr '.' filename).getLast? with
  | some ext => name ++ "." ++ ext
  | none => name

/-- `file_id_size` of `types.rs` (lines 96–109).  The outer `Option` models
the panic of `photos.last().unwrap()` on an empty photo list (`none`); the
inner value is the function's Rust result. -/
def file_id_size : MessageType → Option (Option (String × Option Int))
  | .photo photos =>
    match photos.getLast? with
    | none => none
    | some largest => some (some (largest.file_id, largest.file_size))
  | .document d => some (some (d.file_id, d.file_size))
  | .audio a => some (some (a.file_id, a.file_size))
  | .video v => some (some (v.file_id, v.file_size))
  | .voice v => some (some (v.file_id, v.file_size))
  | _ => some none

/-! ## `main.rs`: the media download and the Telegram ingest loop -/

/-- Success/failure of the external effects inside `download_file`
(`main.rs` lines 111–131): the hyper request/response, `File::create`,
and `io::copy`. -/
structure MediaEffects where
  netOk : Bool
  createOk : Bool
  copyOk : Bool
deriving Repr, DecidableEq

/-- `download_file` of `main.rs` (lines 111–131).  `none` models a panic
(the `unwrap`s on the hyper request, on an empty URL path, and on
`io::copy`); `.error` models the `io::Result` `Err` propagated by
`try!(File::create(path))`; `.ok` returns the base URL with the source
URL's last path segment pushed. -/
def download_file (eff : MediaEffects) (url : MUrl) (baseurl : MUrl) :
    Option (Except Unit MUrl) :=
  if eff.netOk then
    match url.path.getLast? with
    | none => none
    | some filename =>
      if eff.createOk then
        if eff.copyOk then some (.ok (baseurl.push filename))
        else none
      else some (.error ())
  else none

/-- The URL of a Telegram file (`Api::get_file_url` composed with
`Url::parse`): `https://api.telegram.org/file/bot<token>/<file_path>`. -/
def get_file_url (token : String) (path : String) : MUrl :=
  ⟨"api.telegram.org", "file" :: ("bot" ++ token) :: splitStr '/' path⟩

/-- `File::get_file`'s result (`telegram_bot::types::File`): the optional
`file_path` used to build the download URL. -/
structure TgFileInfo where
  file_path : Option String
deriving Repr, DecidableEq

/-- Success/failure switches for the external effects of one `handle_tg`
iteration: the persistence write of `save_chat_ids` (whose `unwrap`s panic
on failure), the `tg.get_file` API call (`none` = the call failed and its
`unwrap` panics), and the media download. -/
structure TgEffects where
  saveOk : Bool
  getFile : Option TgFileInfo
  media : MediaEffects
deriving Repr, DecidableEq

/-- The configuration fields `handle_tg` reads (`struct Config`). -/
structure TgConfig where
  token : String
  debug : Option Bool
  relay_media : Option Bool
  base_url : Option MUrl
  download_dir : Option String
deriving Repr, DecidableEq

/-- The discovery step inlined in `handle_tg` (`main.rs` lines 229–235),
the spec's `record_chat_id`: when the title is unknown, insert it and
synchronously rewrite the persisted table via `save_chat_ids`, whose
`File::create(..).unwrap()` / `write_all(..).unwrap()` panic on a write
failure (`none`).  Returns the new table and whether a persistence write
was performed. -/
def record_chat_id (saveOk : Bool) (chat_ids : List (TelegramGroup × ChatID))
    (title : TelegramGroup) (id : ChatID) :
    Option (List (TelegramGroup × ChatID) × Bool) :=
  match lookupA chat_ids title with
  | some _ => some (chat_ids, false)
  | none =>
    let m := insertA chat_ids title id
    if saveOk then some (m, true) else none

/-- Result of handling one Telegram update: the new shared state, the IRC
sends `(channel, line)` issued, whether the chat-id table was persisted,
and whether a media download completed. -/
structure TgStepResult where
  state : RelayState
  sends : List (IrcChannel × String)
  saved : Bool
  downloaded : Bool
deriving Repr, DecidableEq

/-- The listener closure of `handle_tg` for one update carrying a message
(`main.rs` lines 210–297).  `none` models a panic of the closure: a failing
`save_chat_ids`, `tg.get_file(..).unwrap()`, the `unwrap`s on
`config.download_dir` / `config.base_url`, or `download_file(..).unwrap()`.
Only messages from a `Group` chat are considered; discovery runs before and
independently of routing; only `Text` and `Photo` content is relayed, and a
photo only when `relay_media` is set. -/
def handle_tg_update (cfg : TgConfig) (eff : TgEffects) (st : RelayState)
    (m : TgMessage) : Option TgStepResult :=
  match m.chat with
  | .group id title =>
    match record_chat_id eff.saveOk st.chat_ids title id with
    | none => none
    | some (ids, saved) =>
      let st := { st with chat_ids := ids }
      match lookupA st.irc_channel title with
      | none => some ⟨st, [], saved, false⟩
      | some channel =>
        let nick := format_tg_nick m.«from»
        match m.msg with
        | .text t => some ⟨st, [(channel, relayFormat nick t)], saved, false⟩
        | .photo ps =>
          if cfg.relay_media.getD false then
            match ps.getLast? with
            | none => some ⟨st, [], saved, false⟩
            | some _file =>
              match eff.getFile with
              | none => none
              | some finfo =>
                match finfo.file_path with
                | none => some ⟨st, [], saved, false⟩
                | some path =>
                  match cfg.download_dir with
                  | none => none
                  | some _ddir =>
                    match cfg.base_url with
                    | none => none
                    | some burl =>
                      let user := user_path m.«from»
                      let base_url := burl.push user
                      let tg_url := get_file_url cfg.token path
                      match download_file eff.media tg_url base_url with
                      | none => none
                      | some (.error _) => none
                      | some (.ok local_url) =>
                        some ⟨st, [(channel, relayFormat nick local_url.render)],
                              saved, true⟩
          else some ⟨st, [], saved, false⟩
        | _ => some ⟨st, [], saved, false⟩
  | .otherChat => some ⟨st, [], false, false⟩

/-- The outer loop of `handle_tg` (`main.rs` lines 208–303): when one
long-poll cycle returns `Ok`, loop again immediately; when it returns
`Err(e)`, print `e` and call `std::process::exit(1)`. -/
def tg_poll_cycle (res : Except String Unit) : LoopAction :=
  match res with
  | .ok _ => .continueNoSleep
  | .error _ => .exitProcess 1

/-! ## `main.rs`: startup construction of the routing tables -/

/-- `main`'s `irc_channel` table (`main.rs` line 330): the configured
`maps` HashMap (group → channel) itself, modelled by inserting each of its
pairs. -/
def build_irc_channel (maps : List (TelegramGroup × IrcChannel)) :
    List (TelegramGroup × IrcChannel) :=
  maps.foldl (fun acc p => insertA acc p.1 p.2) []

/-- `main`'s `tg_group` table (`main.rs` line 332): the reversal
`maps.iter().map(|(k, v)| (v, k)).collect()` (channel → group). -/
def build_tg_group (maps : List (TelegramGroup × IrcChannel)) :
    List (IrcChannel × TelegramGroup) :=
  maps.foldl (fun acc p => insertA acc p.2 p.1) []

/-! ## Reply-Attribution Resolver (spec §4.5)

The resolver is not present in the source files under review (`src/` holds a
revision that predates it); per the specification it is modelled here from
the spec's words, reusing the real `format_tg_nick` embedded above. -/

/-- Modelled from the spec: the leading `<...>` name extraction of the
Reply-Attribution Resolver (§4.5), which is missing from `src/` — "the
resolver extracts `name` via a leading `<...>` pattern anchored at the
start of the quoted text".  Returns the characters strictly between a
leading `<` and the first following `>`, or nothing when the pattern is
absent. -/
def extract_reply_nick (quoted : String) : Option String :=
  match quoted.toList with
  | '<' :: rest =>
    let name := rest.takeWhile (fun c => c ≠ '>')
    if name.length < rest.length then some (String.mk name) else none
  | _ => none

/-- Modelled from the spec: the Reply-Attribution Resolver (§4.5), which is
missing from `src/`.  Given the relay bot's own numeric identity, the
optional replied-to message (author and quoted text) and the new body:
no reply leaves the body unchanged; a reply to a self-authored message
prefixes `"name: "` when a leading `<name>` is extracted (body unchanged
otherwise); a reply to another user prefixes that user's formatted display
name (`format_tg_nick`) followed by `": "`. -/
def attribute_reply (selfId : Int) (reply : Option (User × String))
    (body : String) : String :=
  match reply with
  | none => body
  | some (author, quoted) =>
    if author.id = selfId then
      match extract_reply_nick quoted with
      | some name => name ++ ": " ++ body
      | none => body
    else
      format_tg_nick author ++ ": " ++ body

/-! ## Concrete fixtures used by witnesses and counterexamples -/

/-- A relay state with `#foo ↔ FooGroup` configured and `FooGroup`'s chat id
`555` already discovered. -/
def exampleState : RelayState :=
  ⟨[("#foo", "FooGroup")], [("FooGroup", "#foo")], [("FooGroup", 555)]⟩

/-- A Telegram user named "Bob Jones", handle `bob`. -/
def exampleUser : User := ⟨2, "Bob", some "Jones", some "bob"⟩

/-- A configuration with media relay enabled and base URL / download
directory set. -/
def exampleConfig : TgConfig :=
  ⟨"TOKEN", none, some true, some ⟨"files.example.org", []⟩, some "/srv/media"⟩

/-- All external effects succeed; `get_file` yields a file path. -/
def exampleEffectsOk : TgEffects :=
  ⟨true, some ⟨some "photos/file_1.jpg"⟩, ⟨true, true, true⟩⟩

/-- The `tg.get_file` metadata call fails (its `unwrap` panics). -/
def exampleEffectsFetchFail : TgEffects :=
  ⟨true, none, ⟨true, true, true⟩⟩

/-- `get_file` succeeds but the HTTP download fails (the `unwrap` inside
`download_file` panics). -/
def exampleEffectsNetFail : TgEffects :=
  ⟨true, some ⟨some "photos/file_1.jpg"⟩, ⟨false, true, true⟩⟩

/-! ## Lemmas about the association-list model -/

theorem lookupA_filter_ne {β : Type} (m : List (String × β)) (k k' : String)
    (h : k ≠ k') :
    lookupA (m.filter (fun p => p.1 ≠ k)) k' = lookupA m k' := by
  induction m with
  | nil => rfl
  | cons p rest ih =>
    rcases p with ⟨a, b⟩
    by_cases hp : a = k
    · have hfilter : List.filter (fun q => decide (q.1 ≠ k)) ((a, b) :: rest)
          = List.filter (fun q => decide (q.1 ≠ k)) rest :=
        List.filter_cons_of_neg (by simp [hp])
      have hne : ¬ a = k' := fun hc => h (hp ▸ hc ▸ rfl)
      calc lookupA (List.filter (fun q => decide (q.1 ≠ k)) ((a, b) :: rest)) k'
          = lookupA (List.filter (fun q => decide (q.1 ≠ k)) rest) k' := by
            rw [hfilter]
        _ = lookupA rest k' := ih
        _ = lookupA ((a, b) :: rest) k' := by
            show lookupA rest k' = if a = k' then some b else lookupA rest k'
            rw [if_neg hne]
    · have hfilter : List.filter (fun q => decide (q.1 ≠ k)) ((a, b) :: rest)
          = (a, b) :: List.filter (fun q => decide (q.1 ≠ k)) rest :=
        List.filter_cons_of_pos (by simp [hp])
      rw [hfilter]
      show (if a = k' then some b else
          lookupA (List.filter (fun q => decide (q.1 ≠ k)) rest) k')
        = if a = k' then some b else lookupA rest k'
      rw [ih]

theorem lookupA_insertA {β : Type} (m : List (String × β)) (k k' : String)
    (v : β) :
    lookupA (insertA m k v) k' = if k = k' then some v else lookupA m k' := by
  by_cases hk : k = k'
  · show (if k = k' then some v else _) = _
    rw [if_pos hk, if_pos hk]
  · show (if k = k' then some v else
        lookupA (m.filter (fun p => p.1 ≠ k)) k') = _
    rw [if_neg hk, if_neg hk, lookupA_filter_ne m k k' hk]

theorem countKey_insertA {β : Type} (m : List (String × β)) (k : String)
    (v : β) : countKey (insertA m k v) k = 1 := by
  have hnil : (m.filter (fun p => p.1 ≠ k)).filter (fun p => p.1 = k) = [] := by
    induction m with
    | nil => rfl
    | cons p rest ih =>
      by_cases hp : p.1 = k
      · simp [List.filter_cons, hp, ih]
      · simp [List.filter_cons, hp, ih]
  simp [countKey, insertA, List.filter_cons, hnil]

theorem lookupA_foldl_insertA_of_not_mem {β γ : Type} (kf : γ → String)
    (vf : γ → β) (l : List γ) (acc : List (String × β)) (c : String)
    (h : ∀ p ∈ l, kf p ≠ c) :
    lookupA (l.foldl (fun a p => insertA a (kf p) (vf p)) acc) c
      = lookupA acc c := by
  induction l generalizing acc with
  | nil => rfl
  | cons q rest ih =>
    have hq : kf q ≠ c := h q (by simp)
    have hrest : ∀ p ∈ rest, kf p ≠ c := fun p hp => h p (by simp [hp])
    calc lookupA ((q :: rest).foldl (fun a p => insertA a (kf p) (vf p)) acc) c
        = lookupA (insertA acc (kf q) (vf q)) c := ih _ hrest
      _ = lookupA acc c := by rw [lookupA_insertA]; simp [hq]

theorem lookupA_foldl_insertA_of_mem {β γ : Type} (kf : γ → String)
    (vf : γ → β) (l : List γ) (acc : List (String × β)) (x : γ)
    (hnd : (l.map kf).Nodup) (hx : x ∈ l) :
    lookupA (l.foldl (fun a p => insertA a (kf p) (vf p)) acc) (kf x)
      = some (vf x) := by
  induction l generalizing acc with
  | nil => cases hx
  | cons q rest ih =>
    rw [List.map_cons, List.nodup_cons] at hnd
    rcases List.mem_cons.mp hx with hxq | hxrest
    · subst hxq
      have hrest : ∀ p ∈ rest, kf p ≠ kf x := by
        intro p hp hcontra
        exact hnd.1 (hcontra ▸ List.mem_map_of_mem kf hp)
      calc lookupA ((x :: rest).foldl (fun a p => insertA a (kf p) (vf p)) acc) (kf x)
          = lookupA (insertA acc (kf x) (vf x)) (kf x) :=
            lookupA_foldl_insertA_of_not_mem kf vf rest _ (kf x) hrest
        _ = some (vf x) := by rw [lookupA_insertA]; simp
    · exact ih _ hnd.2 hxrest

theorem get_file_url_path_ne_nil (token path : String) :
    (get_file_url token path).path ≠ [] := by
  simp [get_file_url]

theorem get_file_url_getLast?_isSome (token path : String) :
    ∃ x, (get_file_url token path).path.getLast? = some x :=
  ⟨_, List.getLast?_eq_getLast_of_ne_nil (get_file_url_path_ne_nil token path)⟩

/-! ## Claim theorems -/

/-- Claim C1. For every inbound IRC event that is a `PRIVMSG` with an
identifiable sender: when the channel is mapped to a group whose chat id is
known, `handle_irc` issues exactly one outbound Telegram send of the line
`"<sender> body"` to that chat id; when the channel is unmapped, or the
group's chat id is unknown, no outbound send occurs — and in every case the
handler returns normally (the model is total on this path, no panic) and
the loop continues. -/
theorem irc_relay_routing (st : RelayState) (channel t nick : String) :
    (∀ group id, lookupA st.tg_group channel = some group →
      lookupA st.chat_ids group = some id →
      handle_irc_event st (.ok ⟨.privmsg channel t, some nick⟩)
        = ([(id, relayFormat nick t)], .continueNoSleep))
    ∧ (lookupA st.tg_group channel = none →
      handle_irc_event st (.ok ⟨.privmsg channel t, some nick⟩)
        = ([], .continueNoSleep))
    ∧ (∀ group, lookupA st.tg_group channel = some group →
      lookupA st.chat_ids group = none →
      handle_irc_event st (.ok ⟨.privmsg channel t, some nick⟩)
        = ([], .continueNoSleep)) := by
  refine ⟨?_, ?_, ?_⟩
  · intro group id h1 h2
    simp [handle_irc_event, handle_irc_ok, h1, h2]
  · intro h1
    simp [handle_irc_event, handle_irc_ok, h1]
  · intro group h1 h2
    simp [handle_irc_event, handle_irc_ok, h1, h2]

/-- Witness for C1: the spec's own example — `#foo` mapped to `FooGroup`
with id `555` relays `<alice> hello` to chat `555`. -/
theorem irc_relay_routing_witness :
    handle_irc_event exampleState (.ok ⟨.privmsg "#foo" "hello", some "alice"⟩)
      = ([(555, "<alice> hello")], .continueNoSleep) :=
  (irc_relay_routing exampleState "#foo" "hello" "alice").1 "FooGroup" 555
    rfl rfl

/-- Claim C2. The two routing tables built at startup from the configured
mapping (`irc_channel` = the map itself, `tg_group` = its reversal) form a
bijection: every configured pair `(group, channel)` resolves channel →
group and group → channel back to the original names, and every room
absent from the configuration resolves to none.  The hypotheses state that
the configuration is a well-formed 1:1 mapping (distinct groups — a
`HashMap` invariant — and distinct channels, the spec's "each channel maps
to exactly one group and vice versa"). -/
theorem resolve_target_bijection (maps : List (TelegramGroup × IrcChannel))
    (hk : (maps.map Prod.fst).Nodup) (hv : (maps.map Prod.snd).Nodup) :
    (∀ g c, (g, c) ∈ maps →
      lookupA (build_tg_group maps) c = some g ∧
      lookupA (build_irc_channel maps) g = some c)
    ∧ (∀ c, c ∉ maps.map Prod.snd → lookupA (build_tg_group maps) c = none)
    ∧ (∀ g, g ∉ maps.map Prod.fst →
        lookupA (build_irc_channel maps) g = none) := by
  refine ⟨?_, ?_, ?_⟩
  · intro g c hm
    constructor
    · exact lookupA_foldl_insertA_of_mem Prod.snd Prod.fst maps [] (g, c) hv hm
    · exact lookupA_foldl_insertA_of_mem Prod.fst Prod.snd maps [] (g, c) hk hm
  · intro c hc
    exact lookupA_foldl_insertA_of_not_mem Prod.snd Prod.fst maps [] c
      (fun p hp hpc => hc (hpc ▸ List.mem_map_of_mem Prod.snd hp))
  · intro g hg
    exact lookupA_foldl_insertA_of_not_mem Prod.fst Prod.snd maps [] g
      (fun p hp hpg => hg (hpg ▸ List.mem_map_of_mem Prod.fst hp))

/-- Witness for C2: a two-pair configuration round-trips both directions
and an unconfigured room resolves to none. -/
theorem resolve_target_bijection_witness :
    lookupA (build_tg_group [("FooGroup", "#foo"), ("BarGroup", "#bar")])
        "#bar" = some "BarGroup"
    ∧ lookupA (build_irc_channel [("FooGroup", "#foo"), ("BarGroup", "#bar")])
        "BarGroup" = some "#bar"
    ∧ lookupA (build_tg_group [("FooGroup", "#foo"), ("BarGroup", "#bar")])
        "#baz" = none := by
  have h := resolve_target_bijection [("FooGroup", "#foo"), ("BarGroup", "#bar")]
    (by decide) (by decide)
  exact ⟨(h.1 "BarGroup" "#bar" (by decide)).1,
    (h.1 "BarGroup" "#bar" (by decide)).2,
    h.2.1 "#baz" (by decide)⟩

/-- Claim C3. `record_chat_id` is idempotent: recording a fresh
`(group, id)` pair inserts it and performs the persistence write; recording
the same pair again leaves the table unchanged, performs no further write
(so at most one write for that group over the two calls), leaves exactly
one entry for the group, and `lookup_chat_id` (the `chat_ids` lookup)
returns the recorded id immediately afterwards. -/
theorem record_chat_id_idempotent (m : List (TelegramGroup × ChatID))
    (g : TelegramGroup) (i : ChatID) (h : lookupA m g = none) :
    record_chat_id true m g i = some (insertA m g i, true)
    ∧ record_chat_id true (insertA m g i) g i = some (insertA m g i, false)
    ∧ countKey (insertA m g i) g = 1
    ∧ lookupA (insertA m g i) g = some i := by
  have hlook : lookupA (insertA m g i) g = some i := by
    rw [lookupA_insertA]; simp
  refine ⟨?_, ?_, countKey_insertA m g i, hlook⟩
  · simp [record_chat_id, h]
  · simp [record_chat_id, hlook]

/-- Witness for C3: discovering `("FooGroup", 555)` in an empty table. -/
theorem record_chat_id_idempotent_witness :
    record_chat_id true [] "FooGroup" 555 = some ([("FooGroup", 555)], true)
    ∧ record_chat_id true [("FooGroup", 555)] "FooGroup" 555
        = some ([("FooGroup", 555)], false)
    ∧ countKey ([("FooGroup", 555)] : List (TelegramGroup × ChatID))
        "FooGroup" = 1
    ∧ lookupA ([("FooGroup", 555)] : List (TelegramGroup × ChatID))
        "FooGroup" = some 555 :=
  record_chat_id_idempotent [] "FooGroup" 555 rfl

/-- Claim C10. Discovery is unconditional on routing: a message from a
`Group` chat whose title is not yet in the chat-id table gets its
`(title, id)` entry recorded (and the table persisted) even when the title
has no configured channel mapping — so the chat-id table may contain groups
outside the mapping; nothing is sent for such a message. -/
theorem discovery_unconditional (cfg : TgConfig) (eff : TgEffects)
    (st : RelayState) (id : ChatID) (title : String) (u : User)
    (mt : MessageType)
    (hSave : eff.saveOk = true)
    (hFresh : lookupA st.chat_ids title = none)
    (hUnmapped : lookupA st.irc_channel title = none) :
    handle_tg_update cfg eff st ⟨.group id title, u, mt⟩
      = some ⟨{ st with chat_ids := insertA st.chat_ids title id },
          [], true, false⟩
    ∧ lookupA (insertA st.chat_ids title id) title = some id := by
  constructor
  · simp [handle_tg_update, record_chat_id, hFresh, hSave, hUnmapped]
  · rw [lookupA_insertA]; simp

/-- Witness for C10: a message from the unmapped group `LurkGroup` is
recorded and persisted, with no outbound send. -/
theorem discovery_unconditional_witness :
    handle_tg_update exampleConfig exampleEffectsOk exampleState
      ⟨.group 777 "LurkGroup", exampleUser, .text "hi"⟩
      = some ⟨⟨[("#foo", "FooGroup")], [("FooGroup", "#foo")],
          [("LurkGroup", 777), ("FooGroup", 555)]⟩, [], true, false⟩
    ∧ lookupA (insertA exampleState.chat_ids "LurkGroup" 777) "LurkGroup"
        = some 777 :=
  discovery_unconditional exampleConfig exampleEffectsOk exampleState 777
    "LurkGroup" exampleUser (.text "hi") rfl rfl rfl

/-- Claim C5, counterexample. The claim says a failing persistence write is
logged and non-fatal and `record_chat_id` still returns; but on the code a
failing `save_chat_ids` panics (`File::create(..).unwrap()` /
`write_all(..).unwrap()`), so the first insertion of `("FooGroup", 555)`
under a failing write does not return at all (`none` models the panic). -/
theorem save_failure_counterexample :
    record_chat_id false [] "FooGroup" 555 = none := rfl

/-- Claim C5, amended. For every first insertion of a chat id, a failure of
the synchronous persistence write is fatal: `save_chat_ids` unwraps the
write result, so the recording step panics and does not return (no value,
hence no subsequent lookup, is produced by that call). -/
theorem save_failure_fatal (m : List (TelegramGroup × ChatID))
    (g : TelegramGroup) (i : ChatID) (h : lookupA m g = none) :
    record_chat_id false m g i = none := by
  simp [record_chat_id, h]

/-- Witness for the amended C5 at a concrete fresh group. -/
theorem save_failure_fatal_witness :
    record_chat_id false [("FooGroup", 555)] "BarGroup" 7 = none :=
  save_failure_fatal [("FooGroup", 555)] "BarGroup" 7 rfl

/-- Claim C6, counterexample. The claim says both ingest loops sleep a fixed
interval and resume on transport errors and never terminate; but on the
code a failing long-poll cycle makes `handle_tg` call
`std::process::exit(1)` (the loop terminates the process), and `handle_irc`
resumes immediately with no sleep at all. -/
theorem backoff_counterexample :
    tg_poll_cycle (.error "poll failed") = .exitProcess 1
    ∧ (handle_irc_event exampleState (.error "read failed")).2
        = .continueNoSleep := ⟨rfl, rfl⟩

/-- Claim C6, amended. On an IRC transport read error the source-network
loop logs and resumes consumption immediately (no sleep, unbounded
retries, never terminating on its own); on a long-poll cycle failure the
group-chat loop logs and terminates the process with exit code 1. -/
theorem error_loop_policy (st : RelayState) (e : String) :
    handle_irc_event st (.error e) = ([], .continueNoSleep)
    ∧ tg_poll_cycle (.error e) = .exitProcess 1 := ⟨rfl, rfl⟩

/-- Claim C7. `generate_name` does produce a six-character alphanumeric stem,
and `replace_filename` keeps the extension of `"cat.jpg"`; but on a source
name with no `.` the intended `None` arm of `replace_filename` is
unreachable (Rust's `split` always yields at least one piece, so
`"catfile".split('.').last()` is `Some("catfile")`), and the code returns
`"abc123.catfile"` where the claim (and the dead arm) say `"abc123"`. -/
theorem replace_filename_extension_eval :
    replace_filename "cat.jpg" "abc123" = "abc123.jpg"
    ∧ replace_filename "catfile" "abc123" = "abc123.catfile"
    ∧ ∀ rng : Nat → Fin 62, (generate_name rng).length = 6
        ∧ (generate_name rng).toList.all Char.isAlphanum = true := by
  refine ⟨rfl, rfl, fun rng => ⟨rfl, ?_⟩⟩
  have hchar : ∀ i : Fin 62, (gen_ascii_char i).isAlphanum = true := by decide
  show ((List.range 6).map (fun n => gen_ascii_char (rng n))).all
      Char.isAlphanum = true
  rw [List.all_eq_true]
  intro c hc
  rcases List.mem_map.mp hc with ⟨n, _, hn⟩
  simpa [hn.symm] using hchar (rng n)

/-- Claim C4, counterexample. The claim says a media metadata-fetch failure
only skips the attachment, is never surfaced past the ingest loop and the
message still relays; but on the code `tg.get_file(..).unwrap()` panics:
with the fetch failing, handling the photo message produces no result at
all (`none` models the panic escaping the closure), not a relayed message
without attachment. -/
theorem media_failure_counterexample :
    handle_tg_update exampleConfig exampleEffectsFetchFail exampleState
      ⟨.group 555 "FooGroup", exampleUser, .photo [⟨"photoid", some 100⟩]⟩
      = none := rfl

/-- Claim C4, amended. For every inbound group photo message with media
relay enabled, a media metadata-fetch failure (`tg.get_file`), an HTTP
download failure, or a file-write failure panics the group-chat ingest
closure (the `unwrap`s propagate): handling produces no result, nothing of
the message relays, and the attachment is not merely skipped. -/
theorem media_failure_panics (cfg : TgConfig) (eff : TgEffects)
    (st : RelayState) (id cid : ChatID)
    (title channel path ddir : String) (burl : MUrl) (u : User)
    (ps : List FileMeta) (file : FileMeta)
    (hmedia : cfg.relay_media = some true)
    (hknown : lookupA st.chat_ids title = some cid)
    (hmap : lookupA st.irc_channel title = some channel)
    (hps : ps.getLast? = some file)
    (hdd : cfg.download_dir = some ddir)
    (hbu : cfg.base_url = some burl)
    (hfail : eff.getFile = none
      ∨ (eff.getFile = some ⟨some path⟩
          ∧ (eff.media.netOk = false ∨ eff.media.createOk = false
              ∨ eff.media.copyOk = false))) :
    handle_tg_update cfg eff st ⟨.group id title, u, .photo ps⟩ = none := by
  rcases hfail with hgf | ⟨hgf, hf⟩
  · simp [handle_tg_update, record_chat_id, hknown, hmap, hmedia, hps, hgf]
  · obtain ⟨fname, hfname⟩ := get_file_url_getLast?_isSome cfg.token path
    rcases hf with h1 | h2 | h3
    · simp [handle_tg_update, record_chat_id, hknown, hmap, hmedia, hps, hgf,
        hdd, hbu, download_file, h1]
    · cases hnet : eff.media.netOk <;>
        simp [handle_tg_update, record_chat_id, hknown, hmap, hmedia, hps,
          hgf, hdd, hbu, download_file, hnet, h2, hfname]
    · cases hnet : eff.media.netOk
      · simp [handle_tg_update, record_chat_id, hknown, hmap, hmedia, hps,
          hgf, hdd, hbu, download_file, hnet]
      · cases hcreate : eff.media.createOk <;>
          simp [handle_tg_update, record_chat_id, hknown, hmap, hmedia, hps,
            hgf, hdd, hbu, download_file, hnet, hcreate, h3, hfname]

/-- Witness for the amended C4: a failing HTTP download on a concrete
photo message panics the closure. -/
theorem media_failure_panics_witness :
    handle_tg_update exampleConfig exampleEffectsNetFail exampleState
      ⟨.group 555 "FooGroup", exampleUser, .photo [⟨"photoid", some 100⟩]⟩
      = none :=
  media_failure_panics exampleConfig exampleEffectsNetFail exampleState
    555 555 "FooGroup" "#foo" "photos/file_1.jpg" "/srv/media"
    ⟨"files.example.org", []⟩ exampleUser [⟨"photoid", some 100⟩]
    ⟨"photoid", some 100⟩ rfl rfl rfl rfl rfl rfl
    (Or.inr ⟨rfl, Or.inl rfl⟩)

/-- Claim C8, counterexample. The claim says every supported attachment kind
(photo, document, audio, video, voice) invokes the media relay pipeline and
stickers produce a text marker; but on the code, with media relay enabled
and all effects available, a document message is ignored (no download, no
send) and a sticker message produces no marker send either — only `Text`
and `Photo` are relayed. -/
theorem attachment_kinds_counterexample :
    handle_tg_update exampleConfig exampleEffectsOk exampleState
      ⟨.group 555 "FooGroup", exampleUser, .document ⟨"docid", some 5⟩⟩
      = some ⟨exampleState, [], false, false⟩
    ∧ handle_tg_update exampleConfig exampleEffectsOk exampleState
      ⟨.group 555 "FooGroup", exampleUser, .sticker⟩
      = some ⟨exampleState, [], false, false⟩ := ⟨rfl, rfl⟩

/-- Claim C8, amended. With media relay enabled, only photo attachments
invoke the media relay pipeline; document, audio, video, voice and sticker
messages from a mapped group are ignored entirely (no download, no send,
no marker).  The helper `file_id_size` recognises photo, document, audio,
video and voice and excludes stickers, but is not called by the ingest
loop. -/
theorem attachment_kinds (cfg : TgConfig) (eff : TgEffects)
    (st : RelayState) (id cid : ChatID) (title channel : String) (u : User)
    (d a v w : FileMeta)
    (hknown : lookupA st.chat_ids title = some cid)
    (hmap : lookupA st.irc_channel title = some channel) :
    (∀ mt ∈ [MessageType.document d, MessageType.audio a,
        MessageType.video v, MessageType.voice w, MessageType.sticker],
      handle_tg_update cfg eff st ⟨.group id title, u, mt⟩
        = some ⟨st, [], false, false⟩)
    ∧ (∀ ps file path ddir burl,
        cfg.relay_media = some true → ps.getLast? = some file →
        eff.getFile = some ⟨some path⟩ → eff.media = ⟨true, true, true⟩ →
        cfg.download_dir = some ddir → cfg.base_url = some burl →
        ∃ r, handle_tg_update cfg eff st ⟨.group id title, u, .photo ps⟩
          = some r ∧ r.downloaded = true ∧ r.sends.length = 1)
    ∧ file_id_size (.document d) = some (some (d.file_id, d.file_size))
    ∧ file_id_size (.audio a) = some (some (a.file_id, a.file_size))
    ∧ file_id_size (.video v) = some (some (v.file_id, v.file_size))
    ∧ file_id_size (.voice w) = some (some (w.file_id, w.file_size))
    ∧ file_id_size .sticker = some none := by
  refine ⟨?_, ?_, rfl, rfl, rfl, rfl, rfl⟩
  · intro mt hmt
    simp only [List.mem_cons, List.not_mem_nil, or_false] at hmt
    rcases hmt with h | h | h | h | h <;> subst h <;>
      simp [handle_tg_update, record_chat_id, hknown, hmap]
  · intro ps file path ddir burl hmedia hps hgf hm hdd hbu
    obtain ⟨fname, hfname⟩ := get_file_url_getLast?_isSome cfg.token path
    refine ⟨⟨st, [(channel, relayFormat (format_tg_nick u)
        (MUrl.render ((burl.push (user_path u)).push fname)))], false, true⟩,
      ?_, rfl, rfl⟩
    simp [handle_tg_update, record_chat_id, hknown, hmap, hmedia, hps, hgf,
      hdd, hbu, download_file, hm, hfname]

/-- Witness for the amended C8: a concrete audio message is ignored while
a concrete photo message with all effects available is downloaded and
relayed. -/
theorem attachment_kinds_witness :
    handle_tg_update exampleConfig exampleEffectsOk exampleState
      ⟨.group 555 "FooGroup", exampleUser, .audio ⟨"audid", some 9⟩⟩
      = some ⟨exampleState, [], false, false⟩
    ∧ ∃ r, handle_tg_update exampleConfig exampleEffectsOk exampleState
        ⟨.group 555 "FooGroup", exampleUser, .photo [⟨"photoid", some 100⟩]⟩
        = some r ∧ r.downloaded = true ∧ r.sends.length = 1 := by
  have h := attachment_kinds exampleConfig exampleEffectsOk exampleState
    555 555 "FooGroup" "#foo" exampleUser
    ⟨"docid", some 5⟩ ⟨"audid", some 9⟩ ⟨"vidid", some 9⟩ ⟨"voiceid", some 9⟩
    rfl rfl
  exact ⟨h.1 (MessageType.audio ⟨"audid", some 9⟩) (by simp),
    h.2.1 [⟨"photoid", some 100⟩] ⟨"photoid", some 100⟩ "photos/file_1.jpg"
      "/srv/media" ⟨"files.example.org", []⟩ rfl rfl rfl rfl rfl rfl⟩

/-- Claim C9. The reply-attribution resolution (modelled from the spec, using
the source's `format_tg_nick`): a reply to a self-authored message whose
quoted text starts with `<name>` prefixes the new body with `"name: "`; a
reply to a message authored by a different user prefixes that user's
formatted display name (first name, or "first last" when a last name is
present) followed by `": "`; a message that is not a reply gets no
prefix. -/
theorem reply_attribution_resolution (selfId : Int) (author : User)
    (quoted body name : String) :
    attribute_reply selfId none body = body
    ∧ (author.id = selfId → extract_reply_nick quoted = some name →
        attribute_reply selfId (some (author, quoted)) body
          = name ++ ": " ++ body)
    ∧ (author.id ≠ selfId →
        attribute_reply selfId (some (author, quoted)) body
          = format_tg_nick author ++ ": " ++ body) := by
  refine ⟨rfl, ?_, ?_⟩
  · intro h1 h2
    simp [attribute_reply, h1, h2]
  · intro h1
    simp [attribute_reply, h1]

/-- Witness for C9: the spec's example — `"world"` replying to the
self-authored `"<alice> hello"` yields body `"alice: world"`, and with
sender "Bob Jones" the relayed line is `"<Bob Jones> alice: world"`;
a reply to a message by Bob Jones himself is prefixed `"Bob Jones: "`. -/
theorem reply_attribution_resolution_witness :
    attribute_reply 1 (some (⟨1, "TiercelBot", none, some "tiercel"⟩,
      "<alice> hello")) "world" = "alice: world"
    ∧ relayFormat (format_tg_nick exampleUser) "alice: world"
        = "<Bob Jones> alice: world"
    ∧ attribute_reply 1 (some (exampleUser, "hey")) "world"
        = "Bob Jones: world" := by
  refine ⟨?_, rfl, ?_⟩
  · exact (reply_attribution_resolution 1
      ⟨1, "TiercelBot", none, some "tiercel"⟩ "<alice> hello" "world"
      "alice").2.1 rfl rfl
  · exact (reply_attribution_resolution 1 exampleUser "hey" "world"
      "unused").2.2 (by decide)

end Tiercel
